import Mathlib

/-!
Shallow embedding of `src/components/admin/DisplaySettings.tsx`.

The component has four behaviours, each embedded as a pure function from the
handler's inputs (the selected file, the raw form input, the backend's
responses) to the new form state and the list of observable effects it emits
(network requests, toast notifications, console logging).  Backend responses
are passed in explicitly, since the backend itself is out of scope.
-/

namespace DisplaySettings

/-- An error object returned by the backend client (`{ code, message }`). -/
structure SupabaseError where
  code : String
  message : String
deriving Repr, DecidableEq

/-- The row payload sent by `onSubmit`'s upsert into `app_settings`. -/
structure UpsertPayload where
  id : Int
  background_image_url : Option String
  background_color : String
  screensaver_idle_minutes : Int
deriving Repr, DecidableEq

/-- Observable effects emitted by the component's handlers: network requests,
toast notifications and console logging.  Toast identifiers model sonner's
toast ids (`toast.loading` returns an id; `{ id }` options reuse it). -/
inductive Effect where
  | selectSingle (table : String) (columns : String) (idEq : Int)
  | storageUpload (bucket : String) (path : String) (cacheControl : String) (upsertFlag : Bool)
  | getPublicUrl (bucket : String) (path : String)
  | upsertRow (table : String) (payload : UpsertPayload) (onConflict : String)
  | toastLoading (message : String) (id : Nat)
  | toastSuccess (message : String) (id : Option Nat)
  | toastError (message : String) (id : Option Nat)
  | consoleError (context : String)
deriving Repr, DecidableEq

/-- JS `x || y` on a nullable string: `null`/`undefined` and `""` are falsy. -/
def jsOrString : Option String → String → String
  | none, d => d
  | some s, d => if s = "" then d else s

/-- JS `x || y` on a nullable number: `null`/`undefined` and `0` are falsy. -/
def jsOrInt : Option Int → Int → Int
  | none, d => d
  | some n, d => if n = 0 then d else n

/-- JS `x || null` on a nullable string (`values.backgroundImageUrl || null`). -/
def jsOrNull : Option String → Option String
  | none => none
  | some s => if s = "" then none else some s

/-- JS `String.prototype.split` with a one-character separator, over the
character list of the string.  `"".split(sep)` is `[""]`. -/
def jsSplit (sep : Char) : List Char → List (List Char)
  | [] => [[]]
  | c :: cs =>
    match jsSplit sep cs with
    | [] => [[]]
    | seg :: rest => if c = sep then [] :: seg :: rest else (c :: seg) :: rest

/-- JS `Array.prototype.pop` on a non-empty array of string segments:
returns the last element (`[]` on an empty array stands for `undefined`,
which `split` never produces). -/
def jsLast : List (List Char) → List Char
  | [] => []
  | [seg] => seg
  | _ :: seg :: rest => jsLast (seg :: rest)

/-- `s.split(sep).pop()`: the segment after the last occurrence of `sep`
(the whole string when `sep` does not occur). -/
def jsSplitPop (sep : Char) (s : String) : String :=
  String.mk (jsLast (jsSplit sep s.data))

/-- The form's value type after zod validation (`DisplaySettingsFormValues`):
`backgroundImageUrl` is a nullable optional string, `backgroundColor` a
string, `screensaverIdleMinutes` a coerced integer. -/
structure FormValues where
  backgroundImageUrl : Option String
  backgroundColor : String
  screensaverIdleMinutes : Int
deriving Repr, DecidableEq

/-- The `defaultValues` passed to `useForm`. -/
def defaultValues : FormValues :=
  { backgroundImageUrl := none, backgroundColor := "#0A0A0A", screensaverIdleMinutes := 5 }

/-- Validation failures of `formSchema`:
`colorEmpty` is `z.string().min(1, "Warna latar belakang tidak boleh kosong.")`,
`minutesNotInteger` is a `z.coerce.number().int()` failure (non-numeric input
coerces to NaN, fractional input fails the integer check), and
`minutesTooSmall` is `.min(1, "Durasi screensaver harus minimal 1 menit.")`. -/
inductive FieldError where
  | colorEmpty
  | minutesNotInteger
  | minutesTooSmall
deriving Repr, DecidableEq

/-- Raw form input before validation.  `screensaverIdleMinutes` is the result
of JS number coercion: `some n` when the field coerces to the integer `n`,
`none` when it is non-numeric (NaN) or not an integer. -/
structure RawInput where
  backgroundImageUrl : Option String
  backgroundColor : String
  screensaverIdleMinutes : Option Int
deriving Repr, DecidableEq

/-- The zod `formSchema` applied by the resolver: collects the field errors;
on an empty error list the parsed values are handed to `onSubmit`. -/
def validateForm (r : RawInput) : Except (List FieldError) FormValues :=
  let colorErrors := if 1 ≤ r.backgroundColor.length then [] else [FieldError.colorEmpty]
  let minutesErrors :=
    match r.screensaverIdleMinutes with
    | none => [FieldError.minutesNotInteger]
    | some n => if 1 ≤ n then [] else [FieldError.minutesTooSmall]
  match r.screensaverIdleMinutes with
  | none => Except.error (colorErrors ++ minutesErrors)
  | some n =>
    if colorErrors ++ minutesErrors = [] then
      Except.ok
        { backgroundImageUrl := r.backgroundImageUrl,
          backgroundColor := r.backgroundColor,
          screensaverIdleMinutes := n }
    else Except.error (colorErrors ++ minutesErrors)

/-- The backend's response to the upsert issued by `onSubmit`. -/
structure SaveResult where
  error : Option SupabaseError
deriving Repr, DecidableEq

/-- The object literal built inside `onSubmit`'s upsert call. -/
def upsertPayload (values : FormValues) : UpsertPayload :=
  { id := 1,
    background_image_url := jsOrNull values.backgroundImageUrl,
    background_color := values.backgroundColor,
    screensaver_idle_minutes := values.screensaverIdleMinutes }

/-- `onSubmit`: one upsert into `app_settings` with conflict target `id`,
then an error log plus error toast, or a success toast. -/
def onSubmit (values : FormValues) (res : SaveResult) : List Effect :=
  Effect.upsertRow "app_settings" (upsertPayload values) "id" ::
    match res.error with
    | some _ =>
      [Effect.consoleError "Error saving display settings:",
       Effect.toastError "Gagal menyimpan pengaturan tampilan." none]
    | none => [Effect.toastSuccess "Pengaturan tampilan berhasil disimpan!" none]

/-- `handleSubmit(onSubmit)`: the resolver runs `formSchema` first; on a
validation failure `onSubmit` is never invoked and no effect is emitted. -/
def submitFlow (r : RawInput) (res : SaveResult) : List Effect :=
  match validateForm r with
  | Except.error _ => []
  | Except.ok values => onSubmit values res

/-- The persisted settings row as returned by the mount-time select;
every column may be NULL. -/
structure SettingsRow where
  background_image_url : Option String
  background_color : Option String
  screensaver_idle_minutes : Option Int
deriving Repr, DecidableEq

/-- The `{ data, error }` response of `select(...).eq("id", 1).single()`. -/
structure FetchResult where
  data : Option SettingsRow
  error : Option SupabaseError
deriving Repr, DecidableEq

/-- The component state touched by the handlers: the form's values and the
`currentImageUrl` preview state. -/
structure FormState where
  values : FormValues
  currentImageUrl : Option String
deriving Repr, DecidableEq

/-- The component state right after `useForm` and `useState(null)`. -/
def initialFormState : FormState :=
  { values := defaultValues, currentImageUrl := none }

/-- The `else if (data)` branch of `fetchSettings`: populate the form from the
row, with JS `||` fallbacks for color and minutes and the raw nullable value
for the image URL. -/
def applyFetchedData (d : Option SettingsRow) (s : FormState) : FormState :=
  match d with
  | some row =>
    { values :=
        { backgroundImageUrl := row.background_image_url,
          backgroundColor := jsOrString row.background_color "#0A0A0A",
          screensaverIdleMinutes := jsOrInt row.screensaver_idle_minutes 5 },
      currentImageUrl := row.background_image_url }
  | none => s

/-- `fetchSettings`: issues the select, then branches on
`error && error.code !== 'PGRST116'` and otherwise on `data`. -/
def fetchSettings (res : FetchResult) (s : FormState) : FormState × List Effect :=
  let sel :=
    Effect.selectSingle "app_settings"
      "background_image_url, background_color, screensaver_idle_minutes" 1
  match res.error with
  | some e =>
    if e.code ≠ "PGRST116" then
      (s, [sel, Effect.consoleError "Error fetching display settings:",
           Effect.toastError "Gagal memuat pengaturan tampilan." none])
    else (applyFetchedData res.data s, [sel])
  | none => (applyFetchedData res.data s, [sel])

/-- The file handle read from `event.target.files?.[0]`. -/
structure FileHandle where
  name : String
deriving Repr, DecidableEq

/-- The nondeterministic inputs of `handleImageUpload`: the generated
`uuidv4()`, the id returned by `toast.loading`, the storage upload's error
(if any) and `publicUrlData?.publicUrl`. -/
structure UploadEnv where
  uuid : String
  toastId : Nat
  uploadError : Option SupabaseError
  publicUrl : Option String
deriving Repr, DecidableEq

/-- The observable outcome of `handleImageUpload`: the emitted effects and
the new values written to the form's `backgroundImageUrl` field and to the
`currentImageUrl` preview state (`none` = the handler did not write the
field, so its previous value is retained). -/
structure UploadOutcome where
  effects : List Effect
  newImageField : Option String
  newPreview : Option String
deriving Repr, DecidableEq

/-- `handleImageUpload`: silent no-op without a file; otherwise derive the
extension with `file.name.split('.').pop()`, build
`backgrounds/<uuid>.<ext>`, upload into bucket `images` (cacheControl 3600,
no overwrite), then resolve the public URL; a missing public URL is thrown
and caught by the same `catch` as an upload error. -/
def handleImageUpload (file : Option FileHandle) (env : UploadEnv) : UploadOutcome :=
  match file with
  | none => { effects := [], newImageField := none, newPreview := none }
  | some f =>
    let fileExtension := jsSplitPop '.' f.name
    let fileName := env.uuid ++ "." ++ fileExtension
    let filePath := "backgrounds/" ++ fileName
    let start :=
      [Effect.toastLoading "Mengunggah gambar latar belakang..." env.toastId,
       Effect.storageUpload "images" filePath "3600" false]
    match env.uploadError with
    | some e =>
      { effects := start ++
          [Effect.consoleError "Error uploading image:",
           Effect.toastError ("Gagal mengunggah gambar: " ++ e.message) (some env.toastId)],
        newImageField := none, newPreview := none }
    | none =>
      let afterUrl := start ++ [Effect.getPublicUrl "images" filePath]
      match env.publicUrl with
      | some url =>
        { effects := afterUrl ++
            [Effect.toastSuccess "Gambar latar belakang berhasil diunggah!" (some env.toastId)],
          newImageField := some url, newPreview := some url }
      | none =>
        { effects := afterUrl ++
            [Effect.consoleError "Error uploading image:",
             Effect.toastError ("Gagal mengunggah gambar: " ++ "Gagal mendapatkan URL publik gambar.")
               (some env.toastId)],
          newImageField := none, newPreview := none }

/-- The submit button is rendered with `disabled={isSubmitting}`. -/
def submitButtonDisabled (isSubmitting : Bool) : Bool := isSubmitting

/-- User-visible events of the save lifecycle. -/
inductive FormEvent where
  | submitClick
  | saveComplete
deriving Repr, DecidableEq

/-- Number of in-flight save operations after one event: a click on the
submit button starts a new save only when the rendered button is not
disabled (`isSubmitting` holds exactly when a save is in flight). -/
def saveStep (inFlight : Nat) : FormEvent → Nat
  | FormEvent.submitClick =>
    if submitButtonDisabled (decide (0 < inFlight)) then inFlight else inFlight + 1
  | FormEvent.saveComplete => inFlight - 1

/-- Number of in-flight save operations after a sequence of events. -/
def runSaves : Nat → List FormEvent → Nat
  | n, [] => n
  | n, e :: es => runSaves (saveStep n e) es

/-- Effect classifier: is this an upsert request? -/
def isUpsert : Effect → Bool
  | Effect.upsertRow _ _ _ => true
  | _ => false

/-- Effect classifier: is this a success toast? -/
def isSuccessToast : Effect → Bool
  | Effect.toastSuccess _ _ => true
  | _ => false

/-- Effect classifier: is this an error toast? -/
def isErrorToast : Effect → Bool
  | Effect.toastError _ _ => true
  | _ => false

/-! Helper lemmas about the JS split/pop embedding. -/

theorem jsSplit_ne_nil (sep : Char) (s : List Char) : jsSplit sep s ≠ [] := by
  cases s with
  | nil => simp [jsSplit]
  | cons c cs =>
    cases h : jsSplit sep cs with
    | nil => simp [jsSplit, h]
    | cons seg rest =>
      simp only [jsSplit, h]
      split <;> simp

theorem jsSplit_of_not_mem (sep : Char) (s : List Char) (h : sep ∉ s) :
    jsSplit sep s = [s] := by
  induction s with
  | nil => rfl
  | cons c cs ih =>
    have hc : ¬ c = sep := fun hh => h (hh ▸ List.mem_cons_self c cs)
    have hcs : sep ∉ cs := fun hm => h (List.mem_cons_of_mem _ hm)
    simp only [jsSplit, ih hcs]
    simp [hc]

theorem jsSplit_length_ge_two (sep : Char) (s : List Char) (h : sep ∈ s) :
    2 ≤ (jsSplit sep s).length := by
  induction s with
  | nil => cases h
  | cons c cs ih =>
    cases hs : jsSplit sep cs with
    | nil => exact absurd hs (jsSplit_ne_nil sep cs)
    | cons seg rest =>
      by_cases hc : c = sep
      · simp [jsSplit, hs, hc]
      · have hm : sep ∈ cs := by
          rcases List.mem_cons.mp h with h1 | h2
          · exact absurd h1.symm hc
          · exact h2
        have h2 := ih hm
        rw [hs] at h2
        simp only [jsSplit, hs, if_neg hc, List.length_cons]
        simp only [List.length_cons] at h2
        omega

theorem jsLast_cons_of_ne_nil (a : List Char) (l : List (List Char)) (h : l ≠ []) :
    jsLast (a :: l) = jsLast l := by
  cases l with
  | nil => exact absurd rfl h
  | cons b m => rfl

theorem jsLast_jsSplit_append (sep : Char) (xs ys : List Char) :
    jsLast (jsSplit sep (xs ++ sep :: ys)) = jsLast (jsSplit sep ys) := by
  induction xs with
  | nil =>
    cases hs : jsSplit sep ys with
    | nil => exact absurd hs (jsSplit_ne_nil sep ys)
    | cons seg rest =>
      simp only [List.nil_append, jsSplit, hs, if_pos rfl]
      exact jsLast_cons_of_ne_nil _ _ (by simp)
  | cons x xs ih =>
    cases hs : jsSplit sep (xs ++ sep :: ys) with
    | nil => exact absurd hs (jsSplit_ne_nil _ _)
    | cons seg rest =>
      have hrest : rest ≠ [] := by
        have h2 := jsSplit_length_ge_two sep (xs ++ sep :: ys) (by simp)
        rw [hs] at h2
        intro hrnil
        rw [hrnil] at h2
        simp at h2
      by_cases hx : x = sep
      · rw [List.cons_append]
        simp only [jsSplit, hs, if_pos hx]
        rw [jsLast_cons_of_ne_nil _ _ (by simp), ← hs, ih]
      · rw [List.cons_append]
        simp only [jsSplit, hs, if_neg hx]
        rw [jsLast_cons_of_ne_nil _ _ hrest, ← jsLast_cons_of_ne_nil seg rest hrest, ← hs, ih]

theorem string_mk_data (s : String) : String.mk s.data = s := rfl

theorem jsSplitPop_no_dot (s : String) (h : ('.' : Char) ∉ s.data) :
    jsSplitPop '.' s = s := by
  rw [jsSplitPop, jsSplit_of_not_mem _ _ h]
  exact string_mk_data s

theorem jsSplitPop_append_ext (base ext : String) (h : ('.' : Char) ∉ ext.data) :
    jsSplitPop '.' (base ++ "." ++ ext) = ext := by
  have hdata : (base ++ "." ++ ext).data = base.data ++ '.' :: ext.data := by
    simp [String.data_append]
  rw [jsSplitPop, hdata, jsLast_jsSplit_append, jsSplit_of_not_mem _ _ h]
  exact string_mk_data ext

theorem one_le_length_of_ne_empty (s : String) (h : s ≠ "") : 1 ≤ s.length := by
  cases s with
  | mk l =>
    cases l with
    | nil => exact absurd rfl h
    | cons c cs => simp [String.length]

theorem validateForm_ok (r : RawInput) (n : Int) (hc : 1 ≤ r.backgroundColor.length)
    (hm : r.screensaverIdleMinutes = some n) (hn : 1 ≤ n) :
    validateForm r =
      Except.ok
        { backgroundImageUrl := r.backgroundImageUrl,
          backgroundColor := r.backgroundColor,
          screensaverIdleMinutes := n } := by
  simp [validateForm, hm, hc, hn]

theorem validateForm_ok_implies (r : RawInput) (v : FormValues)
    (h : validateForm r = Except.ok v) :
    1 ≤ r.backgroundColor.length ∧ ∃ n, r.screensaverIdleMinutes = some n ∧ 1 ≤ n := by
  unfold validateForm at h
  cases hm : r.screensaverIdleMinutes with
  | none => rw [hm] at h; simp at h
  | some n =>
    rw [hm] at h
    by_cases hc : 1 ≤ r.backgroundColor.length
    · by_cases h1 : 1 ≤ n
      · exact ⟨hc, n, rfl, h1⟩
      · simp [hc, h1] at h
    · simp [hc] at h

/-- Claim C2: a submission whose `backgroundImageUrl` is the empty string or
null persists null for `background_image_url` in the upsert payload, never
the empty string, and that payload is the one sent by the upsert request. -/
theorem submit_empty_image_url_persists_null (v : FormValues) (res : SaveResult)
    (h : v.backgroundImageUrl = none ∨ v.backgroundImageUrl = some "") :
    (upsertPayload v).background_image_url = none ∧
    Effect.upsertRow "app_settings" (upsertPayload v) "id" ∈ onSubmit v res := by
  constructor
  · rcases h with h | h <;> simp [upsertPayload, jsOrNull, h]
  · rw [onSubmit]
    exact List.mem_cons_self _ _

/-- Claim C2 witness at a concrete empty-string submission. -/
theorem submit_empty_image_url_persists_null_witness :
    (upsertPayload
      { backgroundImageUrl := some "", backgroundColor := "#0A0A0A",
        screensaverIdleMinutes := 5 }).background_image_url = none :=
  (submit_empty_image_url_persists_null
    { backgroundImageUrl := some "", backgroundColor := "#0A0A0A", screensaverIdleMinutes := 5 }
    { error := none } (Or.inr rfl)).1

/-- Claim C3: a submission with `screensaverIdleMinutes` zero, negative or
non-numeric, or with an empty `backgroundColor`, is blocked by validation:
`onSubmit` never runs and no effect (in particular no upsert) is emitted. -/
theorem invalid_input_blocks_submission (r : RawInput) (res : SaveResult)
    (h : r.backgroundColor = "" ∨ r.screensaverIdleMinutes = none ∨
         ∃ n, r.screensaverIdleMinutes = some n ∧ n ≤ 0) :
    submitFlow r res = [] := by
  unfold submitFlow
  cases hv : validateForm r with
  | error e => rfl
  | ok v =>
    exfalso
    obtain ⟨hc, n, hm, hn⟩ := validateForm_ok_implies r v hv
    rcases h with h | h | ⟨m, hm2, hle⟩
    · rw [h] at hc
      exact absurd hc (by decide)
    · rw [h] at hm
      cases hm
    · rw [hm2] at hm
      cases hm
      omega

/-- Claim C3 witness at a concrete zero-minutes submission. -/
theorem invalid_input_blocks_submission_witness :
    submitFlow
      { backgroundImageUrl := none, backgroundColor := "#0A0A0A",
        screensaverIdleMinutes := some 0 }
      { error := none } = [] :=
  invalid_input_blocks_submission
    { backgroundImageUrl := none, backgroundColor := "#0A0A0A", screensaverIdleMinutes := some 0 }
    { error := none } (Or.inr (Or.inr ⟨0, rfl, by decide⟩))

/-- Claim C4: a valid submission issues exactly one upsert request, against
`app_settings` with id 1 and conflict target `id`, and on backend success
exactly one success notification is shown. -/
theorem valid_submission_single_upsert_and_toast (r : RawInput) (res : SaveResult) (n : Int)
    (hc : r.backgroundColor ≠ "") (hm : r.screensaverIdleMinutes = some n)
    (hn : 1 ≤ n) (hok : res.error = none) :
    (submitFlow r res).countP isUpsert = 1 ∧
    Effect.upsertRow "app_settings"
      { id := 1, background_image_url := jsOrNull r.backgroundImageUrl,
        background_color := r.backgroundColor, screensaver_idle_minutes := n } "id"
      ∈ submitFlow r res ∧
    (submitFlow r res).countP isSuccessToast = 1 := by
  have hlen : 1 ≤ r.backgroundColor.length := one_le_length_of_ne_empty _ hc
  rw [submitFlow, validateForm_ok r n hlen hm hn]
  simp [onSubmit, hok, upsertPayload, isUpsert, isSuccessToast, List.countP_cons]

/-- Claim C4 witness at a concrete valid submission. -/
theorem valid_submission_single_upsert_and_toast_witness :
    (submitFlow
      { backgroundImageUrl := none, backgroundColor := "#FF0000",
        screensaverIdleMinutes := some 10 }
      { error := none }).countP isUpsert = 1 :=
  (valid_submission_single_upsert_and_toast
    { backgroundImageUrl := none, backgroundColor := "#FF0000", screensaverIdleMinutes := some 10 }
    { error := none } 10 (by decide) rfl (by decide) rfl).1

/-- Claim C5: a mount-time load answered with the not-found code `PGRST116`
leaves the form at its built-in defaults (image URL null, color `#0A0A0A`,
idle minutes 5) and produces no error notification. -/
theorem fetch_not_found_keeps_defaults (res : FetchResult) (e : SupabaseError)
    (he : res.error = some e) (hc : e.code = "PGRST116") (hd : res.data = none) :
    (fetchSettings res initialFormState).1 = initialFormState ∧
    initialFormState.values =
      { backgroundImageUrl := none, backgroundColor := "#0A0A0A",
        screensaverIdleMinutes := 5 } ∧
    ((fetchSettings res initialFormState).2).countP isErrorToast = 0 := by
  refine ⟨?_, rfl, ?_⟩ <;>
    simp [fetchSettings, he, hc, hd, applyFetchedData, isErrorToast, List.countP_cons]

/-- Claim C5 witness at a concrete not-found response. -/
theorem fetch_not_found_keeps_defaults_witness :
    (fetchSettings { data := none, error := some { code := "PGRST116", message := "no rows" } }
      initialFormState).1 = initialFormState :=
  (fetch_not_found_keeps_defaults
    { data := none, error := some { code := "PGRST116", message := "no rows" } }
    { code := "PGRST116", message := "no rows" } rfl rfl rfl).1

/-- Claim C6: a mount-time load failing with any code other than `PGRST116`
produces exactly one error notification, logs the error, and leaves the form
at its default values. -/
theorem fetch_error_single_toast_and_defaults (res : FetchResult) (e : SupabaseError)
    (he : res.error = some e) (hc : e.code ≠ "PGRST116") :
    (fetchSettings res initialFormState).1 = initialFormState ∧
    ((fetchSettings res initialFormState).2).countP isErrorToast = 1 ∧
    Effect.consoleError "Error fetching display settings:"
      ∈ (fetchSettings res initialFormState).2 := by
  refine ⟨?_, ?_, ?_⟩ <;>
    simp [fetchSettings, he, hc, isErrorToast, List.countP_cons]

/-- Claim C6 witness at a concrete backend failure. -/
theorem fetch_error_single_toast_and_defaults_witness :
    ((fetchSettings { data := none, error := some { code := "500", message := "boom" } }
      initialFormState).2).countP isErrorToast = 1 :=
  (fetch_error_single_toast_and_defaults
    { data := none, error := some { code := "500", message := "boom" } }
    { code := "500", message := "boom" } rfl (by decide)).2.1

/-- Claim C8: a successful load with a row present populates the form from
the row; a null or empty `background_color` falls back to `#0A0A0A`, a null
or zero `screensaver_idle_minutes` falls back to 5 (JS `||` fallback), and a
null `background_image_url` stays null. -/
theorem fetch_row_populates_form_with_fallbacks (res : FetchResult) (row : SettingsRow)
    (he : res.error = none) (hd : res.data = some row) :
    ((fetchSettings res initialFormState).1).values.backgroundImageUrl
        = row.background_image_url ∧
    ((fetchSettings res initialFormState).1).currentImageUrl = row.background_image_url ∧
    ((fetchSettings res initialFormState).1).values.backgroundColor
        = jsOrString row.background_color "#0A0A0A" ∧
    ((fetchSettings res initialFormState).1).values.screensaverIdleMinutes
        = jsOrInt row.screensaver_idle_minutes 5 ∧
    (row.background_color = none →
      ((fetchSettings res initialFormState).1).values.backgroundColor = "#0A0A0A") ∧
    (row.screensaver_idle_minutes = none →
      ((fetchSettings res initialFormState).1).values.screensaverIdleMinutes = 5) := by
  refine ⟨?_, ?_, ?_, ?_, ?_, ?_⟩ <;>
    simp [fetchSettings, he, hd, applyFetchedData] <;>
    intro h <;> simp [jsOrString, jsOrInt, h]

/-- Claim C8 witness at a concrete row with all columns null. -/
theorem fetch_row_populates_form_with_fallbacks_witness :
    ((fetchSettings
        { data := some { background_image_url := none, background_color := none,
                         screensaver_idle_minutes := none },
          error := none }
        initialFormState).1).values.backgroundColor = "#0A0A0A" :=
  (fetch_row_populates_form_with_fallbacks
    { data := some { background_image_url := none, background_color := none,
                     screensaver_idle_minutes := none },
      error := none }
    { background_image_url := none, background_color := none,
      screensaver_idle_minutes := none } rfl rfl).2.2.2.2.1 rfl

/-- Claim C7: when the binary upload succeeds but no public URL is derived,
the handler throws, the catch shows an error notification carrying the
thrown message and the same toast id as the in-flight loading notification,
and neither the form's image field nor the preview is written (their
previous values are retained). -/
theorem upload_url_derivation_failure_is_total_failure (f : FileHandle) (env : UploadEnv)
    (hup : env.uploadError = none) (hurl : env.publicUrl = none) :
    (handleImageUpload (some f) env).newImageField = none ∧
    (handleImageUpload (some f) env).newPreview = none ∧
    Effect.toastError ("Gagal mengunggah gambar: " ++ "Gagal mendapatkan URL publik gambar.")
        (some env.toastId)
      ∈ (handleImageUpload (some f) env).effects ∧
    Effect.toastLoading "Mengunggah gambar latar belakang..." env.toastId
      ∈ (handleImageUpload (some f) env).effects := by
  refine ⟨?_, ?_, ?_, ?_⟩ <;> simp [handleImageUpload, hup, hurl]

/-- Claim C7 witness at a concrete upload with a missing public URL. -/
theorem upload_url_derivation_failure_witness :
    (handleImageUpload (some { name := "bg.jpg" })
      { uuid := "u", toastId := 3, uploadError := none, publicUrl := none }).newImageField
      = none :=
  (upload_url_derivation_failure_is_total_failure { name := "bg.jpg" }
    { uuid := "u", toastId := 3, uploadError := none, publicUrl := none } rfl rfl).1

/-- Claim C1: uploading a file whose name ends in an extension targets the
storage path `backgrounds/<36-char-uuid>.<extension>` in bucket `images`;
on success both the form's image field and the preview are set to the
derived public URL, and the upload emits no upsert of the settings row. -/
theorem upload_with_extension_targets_path_and_updates_form
    (base ext url : String) (env : UploadEnv)
    (hext : ('.' : Char) ∉ ext.data) (hlen : env.uuid.length = 36)
    (hup : env.uploadError = none) (hurl : env.publicUrl = some url) :
    (∃ u, u.length = 36 ∧
      Effect.storageUpload "images" ("backgrounds/" ++ u ++ "." ++ ext) "3600" false
        ∈ (handleImageUpload (some { name := base ++ "." ++ ext }) env).effects) ∧
    (handleImageUpload (some { name := base ++ "." ++ ext }) env).newImageField = some url ∧
    (handleImageUpload (some { name := base ++ "." ++ ext }) env).newPreview = some url ∧
    ∀ t p oc, Effect.upsertRow t p oc
      ∉ (handleImageUpload (some { name := base ++ "." ++ ext }) env).effects := by
  have hpop : jsSplitPop '.' (base ++ ("." ++ ext)) = ext := by
    rw [← String.append_assoc]
    exact jsSplitPop_append_ext base ext hext
  refine ⟨⟨env.uuid, hlen, ?_⟩, ?_, ?_, ?_⟩ <;>
    simp [handleImageUpload, hup, hurl, hpop, String.append_assoc]

/-- Claim C1 witness: uploading `photo.png` with a 36-character uuid. -/
theorem upload_with_extension_witness :
    (handleImageUpload (some { name := "photo" ++ "." ++ "png" })
      { uuid := "123e4567-e89b-42d3-a456-426614174000", toastId := 1,
        uploadError := none, publicUrl := some "https://cdn.example/img.png" }).newImageField
      = some "https://cdn.example/img.png" :=
  (upload_with_extension_targets_path_and_updates_form "photo" "png"
    "https://cdn.example/img.png"
    { uuid := "123e4567-e89b-42d3-a456-426614174000", toastId := 1,
      uploadError := none, publicUrl := some "https://cdn.example/img.png" }
    (by decide) (by decide) rfl rfl).2.1

/-- Claim C10: for a file name without a dot the extension derivation
returns the whole name, so the storage path is `backgrounds/<uuid>.<name>`;
and with no file selected the handler emits no effect and writes nothing. -/
theorem upload_no_dot_uses_whole_name_and_no_file_is_noop
    (name : String) (env : UploadEnv) (h : ('.' : Char) ∉ name.data) :
    Effect.storageUpload "images" ("backgrounds/" ++ env.uuid ++ "." ++ name) "3600" false
      ∈ (handleImageUpload (some { name := name }) env).effects ∧
    handleImageUpload none env = { effects := [], newImageField := none, newPreview := none } := by
  constructor
  · cases hu : env.uploadError with
    | some e =>
      simp [handleImageUpload, hu, jsSplitPop_no_dot name h, String.append_assoc]
    | none =>
      cases hp : env.publicUrl <;>
        simp [handleImageUpload, hu, hp, jsSplitPop_no_dot name h, String.append_assoc]
  · rfl

/-- Claim C10 witness: uploading a file named `noext`. -/
theorem upload_no_dot_witness :
    Effect.storageUpload "images" ("backgrounds/" ++ "u" ++ "." ++ "noext") "3600" false
      ∈ (handleImageUpload (some { name := "noext" })
          { uuid := "u", toastId := 0, uploadError := none, publicUrl := none }).effects :=
  (upload_no_dot_uses_whole_name_and_no_file_is_noop "noext"
    { uuid := "u", toastId := 0, uploadError := none, publicUrl := none } (by decide)).1

/-- Claim C9: the submit button is disabled while a submission is in flight,
so a click then starts no new save, and along any event sequence starting
idle at most one save is ever in flight. -/
theorem submit_disabled_prevents_second_save (n : Nat) (es : List FormEvent) :
    (0 < n → saveStep n FormEvent.submitClick = n) ∧ runSaves 0 es ≤ 1 := by
  constructor
  · intro h
    simp [saveStep, submitButtonDisabled, h]
  · have key : ∀ (l : List FormEvent) (m : Nat), m ≤ 1 → runSaves m l ≤ 1 := by
      intro l
      induction l with
      | nil => intro m hm; exact hm
      | cons e l ih =>
        intro m hm
        rw [runSaves]
        apply ih
        cases e with
        | submitClick =>
          simp only [saveStep, submitButtonDisabled]
          by_cases h0 : 0 < m
          · simpa [h0] using hm
          · simp [h0]
            omega
        | saveComplete => simp only [saveStep]; omega
    exact key es 0 (by omega)

/-- Claim C9 witness: a click while one save is in flight starts nothing. -/
theorem submit_disabled_prevents_second_save_witness :
    saveStep 1 FormEvent.submitClick = 1 :=
  (submit_disabled_prevents_second_save 1 []).1 (by decide)

end DisplaySettings
